import Mathlib

/-!
Verification of the launch-configuration resolution and caching engine of a
Kubernetes cluster-autoscaling controller, together with its interruption
event constructors.  Pure fragments of the program are embedded as Lean
functions; the cloud boundary is embedded as explicit state passing over
scripted responses.
-/

namespace Karpenter

/-- Tag overlays and label maps are modelled as association lists of
key/value pairs. -/
abbrev Tags := List (String × String)

/-! ## Block-Device Planner -/

/-- One gibibyte, in bytes. -/
def gib : Nat := 1073741824

/-- Modelled from the spec: the Block-Device Planner's size normalization
(§4.4); its implementation is absent from src/.  A byte quantity is
converted to whole gibibytes, rounded up to the nearest whole unit. -/
def bytesToGiBCeil (n : Nat) : Nat := (n + gib - 1) / gib

/-- A user-declared EBS block device, sizes expressed in bytes (the
resource-quantity layer has already turned "4G" into 4·10^9 bytes and
"200Gi" into 200·2^30 bytes). -/
structure BlockDevice where
  volumeSizeBytes : Option Nat
  iops : Option Nat
  throughput : Option Nat
  encrypted : Option Bool
  deleteOnTermination : Option Bool
  kmsKeyID : Option String
  volumeType : Option String
deriving DecidableEq

/-- The EBS portion of a launch-template block-device request, the volume
size now in whole GiB. -/
structure EbsRequest where
  volumeSizeGiB : Option Nat
  iops : Option Nat
  throughput : Option Nat
  encrypted : Option Bool
  deleteOnTermination : Option Bool
  kmsKeyID : Option String
  volumeType : Option String
deriving DecidableEq

/-- Modelled from the spec: the Block-Device Planner (§4.4); its
implementation is absent from src/.  Explicit mappings are used verbatim
after normalizing sizes with round-up-to-whole-gibibyte semantics; IOPS,
throughput, encryption, KMS key, volume type and delete-on-termination pass
through unchanged. -/
def planEbs (d : BlockDevice) : EbsRequest where
  volumeSizeGiB := d.volumeSizeBytes.map bytesToGiBCeil
  iops := d.iops
  throughput := d.throughput
  encrypted := d.encrypted
  deleteOnTermination := d.deleteOnTermination
  kmsKeyID := d.kmsKeyID
  volumeType := d.volumeType

/-- A full block-device mapping: device name plus EBS parameters. -/
structure BlockDeviceMapping where
  deviceName : Option String
  ebs : Option BlockDevice
deriving DecidableEq

/-- The launch-template form of a block-device mapping. -/
structure BlockDeviceMappingRequest where
  deviceName : Option String
  ebs : Option EbsRequest
deriving DecidableEq

/-- Modelled from the spec: normalization of one declared mapping (§4.4). -/
def planBlockDeviceMapping (m : BlockDeviceMapping) : BlockDeviceMappingRequest where
  deviceName := m.deviceName
  ebs := m.ebs.map planEbs

/-! ## Interruption event constructors (embedded from the events source
file, package `events` in `src/unnamed/part_000`). -/

/-- The kind of object an event is attributed to: the legacy Machine
representation, the NodeClaim representation, or the Node. -/
inductive InvolvedKind where
  | machine
  | nodeClaim
  | node
deriving DecidableEq

/-- The involved object reference carried by an event: its kind and UID. -/
structure InvolvedObject where
  kind : InvolvedKind
  uid : String
deriving DecidableEq

/-- Event types mirror `v1.EventTypeNormal` / `v1.EventTypeWarning`. -/
def eventTypeNormal : String := "Normal"

/-- Warning event type constant. -/
def eventTypeWarning : String := "Warning"

/-- An emitted event, mirroring `events.Event` in the source. -/
structure Event where
  involvedObject : InvolvedObject
  type : String
  reason : String
  message : String
  dedupeValues : List String
deriving DecidableEq

/-- A NodeClaim (only the fields the event constructors read): the
`IsMachine` discriminant and the object UID. -/
structure NodeClaim where
  isMachine : Bool
  uid : String
deriving DecidableEq

/-- A Node (only its UID is read by the event constructors). -/
structure Node where
  uid : String
deriving DecidableEq

/-- Embeds `machineutil.NewFromNodeClaim`: the Machine view of a NodeClaim
shares its object metadata, hence its UID. -/
def machineFromNodeClaim (nc : NodeClaim) : InvolvedObject :=
  ⟨InvolvedKind.machine, nc.uid⟩

/-- The NodeClaim as an involved object. -/
def nodeClaimObject (nc : NodeClaim) : InvolvedObject :=
  ⟨InvolvedKind.nodeClaim, nc.uid⟩

/-- The Node as an involved object. -/
def nodeObject (n : Node) : InvolvedObject :=
  ⟨InvolvedKind.node, n.uid⟩

/-- Shared shape of all six interruption event constructors in the source:
one event for the Machine view when `IsMachine`, else one for the
NodeClaim, then one more for the Node when it is non-nil.  Each constructor
in the Go source repeats this structure verbatim with its own
type/reason/messages; they are embedded through this shape with the
literal strings passed in. -/
def interruptionEvents (node : Option Node) (nc : NodeClaim) (ty reason : String)
    (machineMsg nodeClaimMsg nodeMsg : String) : List Event :=
  let base :=
    if nc.isMachine then
      [⟨machineFromNodeClaim nc, ty, reason, machineMsg, [(machineFromNodeClaim nc).uid]⟩]
    else
      [⟨nodeClaimObject nc, ty, reason, nodeClaimMsg, [nc.uid]⟩]
  match node with
  | none => base
  | some n => base ++ [⟨nodeObject n, ty, reason, nodeMsg, [n.uid]⟩]

/-- Embeds `events.SpotInterrupted`. -/
def SpotInterrupted (node : Option Node) (nc : NodeClaim) : List Event :=
  interruptionEvents node nc eventTypeWarning "SpotInterrupted"
    "Spot interruption warning was triggered"
    "Spot interruption warning was triggered"
    "Spot interruption warning was triggered"

/-- Embeds `events.RebalanceRecommendation`. -/
def RebalanceRecommendation (node : Option Node) (nc : NodeClaim) : List Event :=
  interruptionEvents node nc eventTypeNormal "SpotRebalanceRecommendation"
    "Spot rebalance recommendation was triggered"
    "Spot rebalance recommendation was triggered"
    "Spot rebalance recommendation was triggered"

/-- Embeds `events.Stopping`. -/
def Stopping (node : Option Node) (nc : NodeClaim) : List Event :=
  interruptionEvents node nc eventTypeWarning "InstanceStopping"
    "Instance is stopping" "Instance is stopping" "Instance is stopping"

/-- Embeds `events.Terminating`. -/
def Terminating (node : Option Node) (nc : NodeClaim) : List Event :=
  interruptionEvents node nc eventTypeWarning "InstanceTerminating"
    "Instance is terminating" "Instance is terminating" "Instance is terminating"

/-- Embeds `events.Unhealthy`. -/
def Unhealthy (node : Option Node) (nc : NodeClaim) : List Event :=
  interruptionEvents node nc eventTypeWarning "InstanceUnhealthy"
    "An unhealthy warning was triggered for the instance"
    "An unhealthy warning was triggered for the instance"
    "An unhealthy warning was triggered for the instance"

/-- Embeds `events.TerminatingOnInterruption`. -/
def TerminatingOnInterruption (node : Option Node) (nc : NodeClaim) : List Event :=
  interruptionEvents node nc eventTypeWarning "TerminatingOnInterruption"
    "Interruption triggered termination for the Machine"
    "Interruption triggered termination for the NodeClaim"
    "Interruption triggered termination for the Node"

/-- Count of events in a list attributed to a given kind. -/
def countKind (k : InvolvedKind) (evts : List Event) : Nat :=
  (evts.filter (fun e => e.involvedObject.kind = k)).length

/-! ## AMI Resolver -/

/-- A resolved AMI candidate: id, creation timestamp and its requirement
set, here the architecture it demands (the discriminating requirement in
this repository's AMI data model). -/
structure AMI where
  id : String
  creationDate : Nat
  arch : String
deriving DecidableEq

/-- The distinct requirement sets (architectures) appearing among the
candidates, in order of first appearance. -/
def archesOf (amis : List AMI) : List String :=
  (amis.map (fun a => a.arch)).dedup

/-- The candidate with the latest creation timestamp among a non-empty
group (first element plus the rest). -/
def pickNewest (a : AMI) (rest : List AMI) : AMI :=
  rest.foldl (fun best x => if best.creationDate < x.creationDate then x else best) a

/-- Modelled from the spec: the AMI Resolver (§4.2); its implementation is
absent from src/.  Candidates are grouped by identical requirement set;
within a group only the candidate with the latest creation timestamp is
kept; groups whose requirement set is incompatible with every instance
type under consideration are discarded. -/
def resolveAMICandidates (amis : List AMI) (compat : List String) : List AMI :=
  ((archesOf amis).filter (fun s => decide (s ∈ compat))).filterMap
    (fun arch =>
      match amis.filter (fun a => decide (a.arch = arch)) with
      | [] => none
      | a :: rest => some (pickNewest a rest))

/-- Modelled from the spec: AMI resolution as a hard gate for provisioning
(§4.2, §7); its implementation is absent from src/.  An empty candidate
set after filtering is a fatal resolution error, surfaced without internal
retry; otherwise the surviving groups are returned. -/
def resolveAMIPipeline (amis : List AMI) (compat : List String) :
    Except String (List AMI) :=
  let groups := resolveAMICandidates amis compat
  if groups.isEmpty then Except.error "no compatible amis resolved" else Except.ok groups

/-- Modelled from the spec: the provisioning attempt for one node-class
(§4.2, §4.6, §7); its implementation is absent from src/.  AMI resolution
runs exactly once; on a resolution error the error is surfaced to the
caller, the pod is not scheduled and no launch template is created; on
success one launch template is created per surviving candidate group.  The
result carries the outcome, the number of launch templates created and the
number of resolution attempts made. -/
def provisionNodeClass (amis : List AMI) (compat : List String) :
    Except String (List AMI) × Nat × Nat :=
  match resolveAMIPipeline amis compat with
  | Except.error e => (Except.error e, 0, 1)
  | Except.ok groups => (Except.ok groups, groups.length, 1)

/-! ## Subnets and the public-IP network-interface policy -/

/-- A resolved subnet: id, zone, and the assign-public-IPv4-by-default
flag (`MapPublicIpOnLaunch`). -/
structure Subnet where
  id : String
  zone : String
  mapPublicIpOnLaunch : Bool
deriving DecidableEq

/-- True when some selected subnet assigns public IPv4 addresses by
default. -/
def containsPublicIPv4Subnets (subnets : List Subnet) : Bool :=
  subnets.any (fun s => s.mapPublicIpOnLaunch)

/-- A launch-template network-interface spec; only the public-IP override
is relevant here. -/
structure NetworkInterfaceSpec where
  associatePublicIpAddress : Option Bool
deriving DecidableEq

/-- Modelled from the spec: the Launch-Template Orchestrator's
network-interface emission (§4.6); its implementation is absent from src/.
The polarity of the public-IP override is fixed by the repository's
launch-template test suite (`Subnet-based Launch Template Configration`):
an explicit `AssociatePublicIpAddress = false` network-interface spec is
emitted exactly when no selected subnet assigns public IPv4 addresses by
default, and no network-interface override is emitted otherwise. -/
def launchTemplateNetworkInterfaces (subnets : List Subnet) : List NetworkInterfaceSpec :=
  if containsPublicIPv4Subnets subnets then []
  else [⟨some false⟩]

/-- Stated from the spec's words, for comparison with the behavior fixed
by the test suite: the spec claims the explicit disable is emitted only
when the target subnet's default behavior would otherwise assign a public
IPv4 address, and nothing is emitted when it would not. -/
def specClaimNetworkInterfaces (subnets : List Subnet) : List NetworkInterfaceSpec :=
  if containsPublicIPv4Subnets subnets then [⟨some false⟩]
  else []

/-- The resolved launch-template data assembled on a cache miss: image id,
normalized block-device mappings, boot-script bytes and the
network-interface policy derived from the selected subnets. -/
structure LaunchTemplateData where
  imageId : String
  blockDeviceMappings : List BlockDeviceMappingRequest
  userData : String
  networkInterfaces : List NetworkInterfaceSpec
deriving DecidableEq

/-- Modelled from the spec: assembly of the launch-template data on a
cache miss (§4.6), combining the Block-Device Planner output and the
subnet-derived network-interface policy; the implementation is absent from
src/. -/
def buildLaunchTemplateData (imageId : String) (mappings : List BlockDeviceMapping)
    (userData : String) (subnets : List Subnet) : LaunchTemplateData where
  imageId := imageId
  blockDeviceMappings := mappings.map planBlockDeviceMapping
  userData := userData
  networkInterfaces := launchTemplateNetworkInterfaces subnets

/-! ## Launch-Template Cache & Orchestrator -/

/-- The fully resolved boot parameters that form the launch-template cache
key (§4.5): AMI id, ordered security-group id list, subnet public-IP
policy flag, tag set, block-device list, boot-script bytes, capacity type
and instance-profile name. -/
structure ResolvedConfig where
  amiId : String
  securityGroupIds : List String
  assignsPublicIp : Bool
  tags : Tags
  blockDeviceMappings : List BlockDeviceMappingRequest
  bootScript : String
  capacityType : String
  instanceProfile : String
deriving DecidableEq

/-- A pod toleration (key, operator, value, effect), carried by a
scheduling request but irrelevant to launch-template identity. -/
structure Toleration where
  key : String
  op : String
  value : String
  effect : String
deriving DecidableEq

/-- A scheduling request: the pod's tolerations and labels together with
the resolved launch configurations it requires (one per AMI candidate
group). -/
structure SchedulingRequest where
  tolerations : List Toleration
  podLabels : Tags
  resolvedConfigs : List ResolvedConfig
deriving DecidableEq

/-- The fingerprint-to-identity cache, identities being the cloud-side
launch-template names (numbered here). -/
abbrev LTCache := List (ResolvedConfig × Nat)

/-- Cache lookup by resolved-configuration key. -/
def ltLookup (cache : LTCache) (k : ResolvedConfig) : Option Nat :=
  match cache with
  | [] => none
  | (k0, v) :: rest => if k0 = k then some v else ltLookup rest k

/-- Modelled from the spec: `GetOrCreate` of the Launch-Template Cache &
Orchestrator (§4.6); its implementation is absent from src/.  On a hit the
cached identity is returned with no cloud call; on a miss a template is
created (one cloud create call), stored under the fingerprint, and its
identity returned.  `fresh` numbers newly created templates.  The result
is the identity, the updated cache, the updated counter and the number of
create calls made (0 or 1). -/
def getOrCreateLT (cache : LTCache) (k : ResolvedConfig) (fresh : Nat) :
    Nat × LTCache × Nat × Nat :=
  match ltLookup cache k with
  | some id => (id, cache, fresh, 0)
  | none => (fresh, (k, fresh) :: cache, fresh + 1, 1)

/-- Modelled from the spec: resolving every launch-template identity a
scheduling request needs (§4.6), one `GetOrCreate` per resolved candidate
group.  Returns the identities in group order, the updated cache and
counter, and the total number of cloud create calls. -/
def getOrCreateAll (cache : LTCache) (cfgs : List ResolvedConfig) (fresh : Nat) :
    List Nat × LTCache × Nat × Nat :=
  match cfgs with
  | [] => ([], cache, fresh, 0)
  | c :: rest =>
    let (id, cache1, fresh1, n1) := getOrCreateLT cache c fresh
    let (ids, cache2, fresh2, n2) := getOrCreateAll cache1 rest fresh1
    (id :: ids, cache2, fresh2, n1 + n2)

/-- The identities a scheduling request resolves to, threading the cache. -/
def resolveRequest (cache : LTCache) (r : SchedulingRequest) (fresh : Nat) :
    List Nat × LTCache × Nat × Nat :=
  getOrCreateAll cache r.resolvedConfigs fresh

/-! ## Capacity-request orchestration and stale-template recovery -/

/-- One scripted response of the cloud's fleet (capacity) API. -/
inductive FleetResponse where
  | ok (fleetId : String)
  | err (code : String)
deriving DecidableEq

/-- The distinguishable error code the cloud returns when a referenced
launch-template name is not found. -/
def notFoundCode : String := "InvalidLaunchTemplateName.NotFoundException"

/-- Removal of a fingerprint's entry from the cache. -/
def ltEvict (cache : LTCache) (k : ResolvedConfig) : LTCache :=
  cache.filter (fun e => decide (e.1 ≠ k))

/-- Statistics of one capacity attempt: fleet calls issued, failed fleet
calls, cloud template-create calls, and the final cache. -/
structure CapacityStats where
  fleetCalls : Nat
  failedFleetCalls : Nat
  createCalls : Nat
  finalCache : LTCache
deriving DecidableEq

/-- Modelled from the spec: the capacity-request orchestration with
stale-template recovery (§4.6, §7); its implementation is absent from
src/.  The fingerprint's template identity is obtained via `GetOrCreate`,
then a fleet request referencing it is issued.  If the cloud rejects the
request with the template-not-found error code, the orchestrator evicts
the fingerprint's cache entry, recreates the template (one create call)
and retries the capacity request exactly once; any error on the retry —
including a second not-found — is surfaced.  Any other first-call error is
surfaced without retry.  `cloud` scripts the successive fleet responses. -/
def launchCapacity (cache : LTCache) (k : ResolvedConfig) (fresh : Nat)
    (cloud : List FleetResponse) : Except String String × CapacityStats :=
  let (_, cache1, fresh1, c1) := getOrCreateLT cache k fresh
  match cloud with
  | [] => (Except.error "no response", ⟨0, 0, c1, cache1⟩)
  | r1 :: cloudRest =>
    match r1 with
    | FleetResponse.ok fid => (Except.ok fid, ⟨1, 0, c1, cache1⟩)
    | FleetResponse.err code =>
      if code = notFoundCode then
        let cacheEvicted := ltEvict cache1 k
        let (_, cache2, _, c2) := getOrCreateLT cacheEvicted k fresh1
        match cloudRest with
        | [] => (Except.error "no response", ⟨1, 1, c1 + c2, cache2⟩)
        | r2 :: _ =>
          match r2 with
          | FleetResponse.ok fid => (Except.ok fid, ⟨2, 1, c1 + c2, cache2⟩)
          | FleetResponse.err code2 => (Except.error code2, ⟨2, 2, c1 + c2, cache2⟩)
      else (Except.error code, ⟨1, 1, c1, cache1⟩)

/-! ## Static-config fingerprint of a node class -/

/-- Instance metadata options declared on a node class. -/
structure MetadataOptions where
  httpEndpoint : Option String
  httpProtocolIPv6 : Option String
  httpPutResponseHopLimit : Option Nat
  httpTokens : Option String
deriving DecidableEq

/-- One selector term: either an id, a name, a parameter-store path, an
owner, or a non-empty tag map (mutually exclusive within one term). -/
structure SelectorTerm where
  id : Option String
  name : Option String
  ssm : Option String
  owner : Option String
  tags : Tags
deriving DecidableEq

/-- The node-class specification: declared static fields plus the three
dynamic selector-term lists whose effect, not specification, matters. -/
structure NodeClassSpec where
  amiFamily : Option String
  context : Option String
  role : Option String
  tags : Tags
  metadataOptions : Option MetadataOptions
  blockDeviceMappings : List BlockDeviceMapping
  userData : Option String
  detailedMonitoring : Option Bool
  subnetSelectorTerms : List SelectorTerm
  securityGroupSelectorTerms : List SelectorTerm
  amiSelectorTerms : List SelectorTerm
deriving DecidableEq

/-- The canonical digest the static-config hash is computed over: tag maps
and block-device lists enter as multisets, so that key order and slice
order are immaterial, while every underlying declared value is kept. -/
structure StaticDigest where
  amiFamily : Option String
  context : Option String
  role : Option String
  tags : Multiset (String × String)
  metadataOptions : Option MetadataOptions
  blockDeviceMappings : Multiset BlockDeviceMapping
  userData : Option String
  detailedMonitoring : Option Bool
deriving DecidableEq

/-- Modelled from the spec: the static-config hash (`StaticConfigHash`,
§4.5, §8); its implementation is absent from src/.  The spec requires a
hash over exactly the operator-declared static fields, order-insensitive
in tag-map key order and block-device slice order, excluding the selector
terms, and collision-free over the practical input space; it is therefore
modelled as the injective canonical digest of those fields. -/
def StaticConfigHash (s : NodeClassSpec) : StaticDigest where
  amiFamily := s.amiFamily
  context := s.context
  role := s.role
  tags := (s.tags : Multiset (String × String))
  metadataOptions := s.metadataOptions
  blockDeviceMappings := (s.blockDeviceMappings : Multiset BlockDeviceMapping)
  userData := s.userData
  detailedMonitoring := s.detailedMonitoring

/-! ## Declarative-TOML bootstrap synthesis -/

/-- Splits a character stream into lines at newline characters. -/
def splitLines (cs : List Char) : List (List Char) :=
  match cs with
  | [] => [[]]
  | c :: rest =>
    if c = '\n' then [] :: splitLines rest
    else
      match splitLines rest with
      | [] => [[c]]
      | l :: ls => (c :: l) :: ls

/-- Drops leading spaces and tabs of a line. -/
def dropIndent (cs : List Char) : List Char :=
  match cs with
  | [] => []
  | c :: rest => if c = ' ' ∨ c = '\t' then dropIndent rest else c :: rest

/-- A line of the TOML fragment accepted by the declarative bootstrap
family: blank, a comment, a table header, or a key/value assignment. -/
def isTomlLine (l : List Char) : Bool :=
  match dropIndent l with
  | [] => true
  | c :: rest => c == '#' || c == '[' || (c :: rest).contains '='

/-- Modelled from the spec: well-formedness of user-supplied TOML for the
declarative bootstrap family (§4.3); the TOML parser is absent from src/.
Every line must be blank, a comment, a table header, or an assignment. -/
def validToml (s : String) : Bool :=
  (splitLines s.data).all isTomlLine

/-- The key of an assignment line: the characters before the first `=`,
indentation stripped, when the line is an assignment. -/
def lineKey (l : List Char) : Option (List Char) :=
  let t := dropIndent l
  if t.contains '=' then some (t.takeWhile (fun c => c ≠ '=')) else none

/-- Structural overlay of the synthesized lines on top of the user lines:
a synthesized assignment replaces a user assignment with the same key;
every other user line is preserved. -/
def mergeTomlLines (user synth : List (List Char)) : List (List Char) :=
  user.filter (fun l =>
    match lineKey l with
    | none => true
    | some k => !(synth.any (fun sl => lineKey sl == some k))) ++ synth

/-- Modelled from the spec: the declarative-TOML boot-script synthesis
(§4.3, §7); its implementation is absent from src/.  Absent custom data
yields exactly the synthesized script; present custom data is parsed and,
when well-formed, structurally merged with synthesized values taking
precedence; invalid user TOML is a hard failure, never a fallback to the
synthesized defaults. -/
def synthesizeBottlerocket (userData : Option String) (synthesized : String) :
    Except String String :=
  match userData with
  | none => Except.ok synthesized
  | some u =>
    if validToml u then
      Except.ok (String.mk
        (List.intercalate ['\n'] (mergeTomlLines (splitLines u.data) (splitLines synthesized.data))))
    else Except.error "invalid user TOML"

/-! ## Shell bootstrap rendering and the reserved-label exclusion -/

/-- Character-list prefix test. -/
def hasPrefixChars : List Char → List Char → Bool
  | [], _ => true
  | _ :: _, [] => false
  | a :: as, b :: bs => a == b && hasPrefixChars as bs

/-- Character-list contiguous-subsequence (substring) test. -/
def containsSeq (pat : List Char) : List Char → Bool
  | [] => pat.isEmpty
  | c :: rest => hasPrefixChars pat (c :: rest) || containsSeq pat rest

/-- The reserved node-restriction label domain. -/
def reservedDomain : List Char := "node-restriction.kubernetes.io".data

/-- A label key under the reserved node-restriction domain. -/
def isReservedLabelKey (k : String) : Bool :=
  hasPrefixChars reservedDomain k.data

/-- The `key=value,key=value` rendering of the forwarded node labels. -/
def renderLabelArgs : Tags → List Char
  | [] => []
  | [(k, v)] => k.data ++ '=' :: v.data
  | (k, v) :: rest => k.data ++ '=' :: (v.data ++ ',' :: renderLabelArgs rest)

/-- Modelled from the spec: the shell bootstrap renderer's node-label
emission (§4.3); its implementation is absent from src/.  The rendered
user data is the bootstrap command line up to `--node-labels`, the
forwarded labels — every label under the reserved node-restriction domain
excluded — and the remaining flags. -/
def renderBootstrapUserData (head : String) (labels : Tags) (tl : String) : List Char :=
  head.data ++ '=' ::
    (renderLabelArgs (labels.filter (fun kv => !(isReservedLabelKey kv.1))) ++
      ' ' :: tl.data)

/-! ## Theorems -/

/-- The attribution discipline every interruption event list must obey:
exactly one Machine-attributed event when `IsMachine`, exactly one
NodeClaim-attributed event otherwise, exactly one Node-attributed event
iff the node is present, total length 1 or 2, and every event deduplicated
by its involved object's UID. -/
def eventListWellFormed (node : Option Node) (nc : NodeClaim) (evts : List Event) : Prop :=
  countKind InvolvedKind.machine evts = (if nc.isMachine then 1 else 0) ∧
  countKind InvolvedKind.nodeClaim evts = (if nc.isMachine then 0 else 1) ∧
  countKind InvolvedKind.node evts = (if node.isSome then 1 else 0) ∧
  evts.length = 1 + (if node.isSome then 1 else 0) ∧
  ∀ e ∈ evts, e.dedupeValues = [e.involvedObject.uid]

/-- The shared event-constructor shape obeys the attribution discipline. -/
theorem interruptionEvents_wellFormed (node : Option Node) (nc : NodeClaim)
    (ty r m1 m2 m3 : String) :
    eventListWellFormed node nc (interruptionEvents node nc ty r m1 m2 m3) := by
  cases node <;> cases hm : nc.isMachine <;>
    simp [eventListWellFormed, interruptionEvents, countKind, machineFromNodeClaim,
      nodeClaimObject, nodeObject, hm]

/-- Claim C10: every interruption event constructor returns exactly one
event attributed to the Machine representation when `nodeClaim.IsMachine`
and to the NodeClaim otherwise (never both), plus exactly one additional
event attributed to the Node iff the node argument is non-nil, so the list
has length 1 or 2, each event deduplicated by the involved object's UID. -/
theorem interruption_event_attribution (node : Option Node) (nc : NodeClaim) :
    eventListWellFormed node nc (SpotInterrupted node nc) ∧
    eventListWellFormed node nc (RebalanceRecommendation node nc) ∧
    eventListWellFormed node nc (Stopping node nc) ∧
    eventListWellFormed node nc (Terminating node nc) ∧
    eventListWellFormed node nc (Unhealthy node nc) ∧
    eventListWellFormed node nc (TerminatingOnInterruption node nc) :=
  ⟨interruptionEvents_wellFormed node nc _ _ _ _ _,
   interruptionEvents_wellFormed node nc _ _ _ _ _,
   interruptionEvents_wellFormed node nc _ _ _ _ _,
   interruptionEvents_wellFormed node nc _ _ _ _ _,
   interruptionEvents_wellFormed node nc _ _ _ _ _,
   interruptionEvents_wellFormed node nc _ _ _ _ _⟩

/-- Claim C6: explicit block-device volume sizes are normalized with
ceiling semantics — the GiB size is the least whole number of gibibytes
covering the requested bytes, never a truncation — while IOPS, throughput,
encryption, KMS key, volume type and delete-on-termination pass through
unchanged; "4G" (4·10^9 bytes) resolves to 4 GiB, "2G" to 2 GiB and
"200G" to 187 GiB. -/
theorem blockDevice_size_normalization :
    (∀ (d : BlockDevice) (b : Nat), d.volumeSizeBytes = some b →
      (planEbs d).volumeSizeGiB = some (bytesToGiBCeil b) ∧
      b ≤ gib * bytesToGiBCeil b ∧
      gib * bytesToGiBCeil b < b + gib ∧
      (planEbs d).iops = d.iops ∧
      (planEbs d).throughput = d.throughput ∧
      (planEbs d).encrypted = d.encrypted ∧
      (planEbs d).kmsKeyID = d.kmsKeyID ∧
      (planEbs d).volumeType = d.volumeType ∧
      (planEbs d).deleteOnTermination = d.deleteOnTermination) ∧
    bytesToGiBCeil 4000000000 = 4 ∧
    bytesToGiBCeil 2000000000 = 2 ∧
    bytesToGiBCeil 200000000000 = 187 := by
  refine ⟨?_, by rfl, by rfl, by rfl⟩
  intro d b hb
  refine ⟨by simp [planEbs, hb], ?_, ?_, rfl, rfl, rfl, rfl, rfl, rfl⟩ <;>
    · simp only [bytesToGiBCeil, gib]
      omega

/-- Concrete instance of the block-device normalization theorem at the
"200G" mapping of the repository's test suite. -/
theorem blockDevice_size_normalization_witness :
    (planEbs ⟨some 200000000000, some 10000, none, some true, some true,
      some "arn:aws:kms:key", some "io2"⟩).volumeSizeGiB = some (bytesToGiBCeil 200000000000) ∧
    200000000000 ≤ gib * bytesToGiBCeil 200000000000 ∧
    (planEbs ⟨some 200000000000, some 10000, none, some true, some true,
      some "arn:aws:kms:key", some "io2"⟩).iops = some 10000 := by
  have h := blockDevice_size_normalization.1
    ⟨some 200000000000, some 10000, none, some true, some true,
      some "arn:aws:kms:key", some "io2"⟩ 200000000000 rfl
  exact ⟨h.1, h.2.1, h.2.2.2.1⟩

/-- Claim C2: the static-config hash is exactly as fine as the declared
static fields — two specs hash equal iff they agree on AMI family,
context, role, metadata options, user data and detailed monitoring and
have the same tag map and block-device list up to reordering; in
particular reordering tags or mappings never changes the hash, changing
any underlying declared value always does, and the selector-term fields
never influence it (they do not appear in the characterization), so
byte-identical specs always hash equal. -/
theorem staticConfigHash_characterization (A B : NodeClassSpec) :
    StaticConfigHash A = StaticConfigHash B ↔
      (A.amiFamily = B.amiFamily ∧ A.context = B.context ∧ A.role = B.role ∧
       A.tags.Perm B.tags ∧ A.metadataOptions = B.metadataOptions ∧
       A.blockDeviceMappings.Perm B.blockDeviceMappings ∧
       A.userData = B.userData ∧ A.detailedMonitoring = B.detailedMonitoring) := by
  simp [StaticConfigHash, StaticDigest.mk.injEq, Multiset.coe_eq_coe]

/-- Node-class spec of the hash test fixture. -/
def hashSpecBase : NodeClassSpec where
  amiFamily := some "AL2"
  context := some "context-1"
  role := some "role-1"
  tags := [("keyTag-1", "valueTag-1"), ("keyTag-2", "valueTag-2")]
  metadataOptions := some ⟨some "test-metadata-1", none, none, none⟩
  blockDeviceMappings := [⟨some "map-device-1", none⟩, ⟨some "map-device-2", none⟩]
  userData := some "userdata-test-1"
  detailedMonitoring := some false
  subnetSelectorTerms := []
  securityGroupSelectorTerms := []
  amiSelectorTerms := []

/-- The same declared values with tags and mappings reordered and the
selector terms changed. -/
def hashSpecReordered : NodeClassSpec where
  amiFamily := some "AL2"
  context := some "context-1"
  role := some "role-1"
  tags := [("keyTag-2", "valueTag-2"), ("keyTag-1", "valueTag-1")]
  metadataOptions := some ⟨some "test-metadata-1", none, none, none⟩
  blockDeviceMappings := [⟨some "map-device-2", none⟩, ⟨some "map-device-1", none⟩]
  userData := some "userdata-test-1"
  detailedMonitoring := some false
  subnetSelectorTerms := [⟨none, none, none, none, [("subnet-test-key", "subnet-test-value")]⟩]
  securityGroupSelectorTerms := [⟨none, none, none, none, [("sg-test-key", "sg-test-value")]⟩]
  amiSelectorTerms := [⟨none, none, none, none, [("ami-test-key", "ami-test-value")]⟩]

/-- The base spec with only the role changed. -/
def hashSpecRoleDrift : NodeClassSpec :=
  { hashSpecBase with role := some "role-2" }

/-- Concrete instance of the hash characterization: reordering tags and
mappings (and changing selector terms) keeps the hash, changing the role
changes it. -/
theorem staticConfigHash_characterization_witness :
    StaticConfigHash hashSpecBase = StaticConfigHash hashSpecReordered ∧
    StaticConfigHash hashSpecBase ≠ StaticConfigHash hashSpecRoleDrift := by
  constructor
  · exact (staticConfigHash_characterization hashSpecBase hashSpecReordered).mpr
      ⟨rfl, rfl, rfl, by decide, rfl, by decide, rfl, rfl⟩
  · intro h
    have h2 := (staticConfigHash_characterization hashSpecBase hashSpecRoleDrift).mp h
    simp [hashSpecBase, hashSpecRoleDrift] at h2

/-- Claim C8: for the declarative-TOML bootstrap family, invalid
user-supplied TOML makes boot-script synthesis fail for that node — the
error is surfaced and no output (in particular not the synthesized
default) is produced — and the test suite's shell-script user data is
indeed invalid TOML. -/
theorem invalid_user_toml_is_fatal :
    (∀ (u synthesized : String), validToml u = false →
      synthesizeBottlerocket (some u) synthesized = Except.error "invalid user TOML" ∧
      ∀ out, synthesizeBottlerocket (some u) synthesized ≠ Except.ok out) ∧
    validToml "#/bin/bash\n ./not-toml.sh" = false := by
  refine ⟨?_, by decide⟩
  intro u s hu
  refine ⟨by simp [synthesizeBottlerocket, hu], ?_⟩
  intro out
  simp [synthesizeBottlerocket, hu]

/-- Concrete instance: synthesis fails on the test suite's invalid user
data and does not fall back to the synthesized default. -/
theorem invalid_user_toml_is_fatal_witness :
    synthesizeBottlerocket (some "#/bin/bash\n ./not-toml.sh") "[settings.kubernetes]" =
      Except.error "invalid user TOML" ∧
    synthesizeBottlerocket (some "#/bin/bash\n ./not-toml.sh") "[settings.kubernetes]" ≠
      Except.ok "[settings.kubernetes]" := by
  have h := invalid_user_toml_is_fatal.1 "#/bin/bash\n ./not-toml.sh"
    "[settings.kubernetes]" (by decide)
  exact ⟨h.1, h.2 "[settings.kubernetes]"⟩

/-- Claim C5 counterexample: at a subnet whose default does not assign a
public IPv4 address the code emits the explicit disable (the claim says it
must emit nothing), and at a subnet whose default does assign one the code
emits nothing (the claim says it must emit the explicit disable). -/
theorem publicIp_policy_counterexample :
    launchTemplateNetworkInterfaces [⟨"subnet-test1", "test-zone-1a", false⟩] =
      [⟨some false⟩] ∧
    specClaimNetworkInterfaces [⟨"subnet-test1", "test-zone-1a", false⟩] = [] ∧
    launchTemplateNetworkInterfaces [⟨"subnet-test2", "test-zone-1b", true⟩] = [] ∧
    specClaimNetworkInterfaces [⟨"subnet-test2", "test-zone-1b", true⟩] = [⟨some false⟩] := by
  decide

/-- Claim C5 (amended): the resolved configuration includes a
network-interface spec that explicitly disables public-IP assignment
exactly when no target subnet's default behavior would assign a public
IPv4 address; when some subnet's default would assign one, no explicit
network-interface override is emitted. -/
theorem publicIp_policy_amended (imageId userData : String)
    (mappings : List BlockDeviceMapping) (subnets : List Subnet) :
    (containsPublicIPv4Subnets subnets = false →
      (buildLaunchTemplateData imageId mappings userData subnets).networkInterfaces =
        [⟨some false⟩]) ∧
    (containsPublicIPv4Subnets subnets = true →
      (buildLaunchTemplateData imageId mappings userData subnets).networkInterfaces = []) := by
  constructor <;> intro h <;>
    simp [buildLaunchTemplateData, launchTemplateNetworkInterfaces, h]

/-- Concrete instance of the amended public-IP policy at the test suite's
subnets. -/
theorem publicIp_policy_amended_witness :
    (buildLaunchTemplateData "ami-123" [] "userdata"
      [⟨"subnet-test1", "test-zone-1a", false⟩]).networkInterfaces = [⟨some false⟩] ∧
    (buildLaunchTemplateData "ami-123" [] "userdata"
      [⟨"subnet-test2", "test-zone-1b", true⟩]).networkInterfaces = [] := by
  exact ⟨(publicIp_policy_amended "ami-123" "userdata" []
      [⟨"subnet-test1", "test-zone-1a", false⟩]).1 (by decide),
    (publicIp_policy_amended "ami-123" "userdata" []
      [⟨"subnet-test2", "test-zone-1b", true⟩]).2 (by decide)⟩

/-! ### Fingerprint-cache reuse -/

/-- The `GetOrCreate` step never disturbs an existing cache binding. -/
theorem ltLookup_getOrCreateLT_stable (cache : LTCache) (k : ResolvedConfig)
    (fresh : Nat) (k0 : ResolvedConfig) (v : Nat)
    (h : ltLookup cache k0 = some v) :
    ltLookup (getOrCreateLT cache k fresh).2.1 k0 = some v := by
  unfold getOrCreateLT
  cases hk : ltLookup cache k with
  | some id => simpa using h
  | none =>
    simp only [ltLookup]
    by_cases hkk : k = k0
    · subst hkk
      rw [hk] at h
      exact absurd h (by simp)
    · simp [hkk, h]

/-- Resolving a whole request never disturbs an existing cache binding. -/
theorem ltLookup_getOrCreateAll_stable (cfgs : List ResolvedConfig) :
    ∀ (cache : LTCache) (fresh : Nat) (k0 : ResolvedConfig) (v : Nat),
      ltLookup cache k0 = some v →
      ltLookup (getOrCreateAll cache cfgs fresh).2.1 k0 = some v := by
  induction cfgs with
  | nil => intro cache fresh k0 v h; simpa [getOrCreateAll] using h
  | cons c rest ih =>
    intro cache fresh k0 v h
    simp only [getOrCreateAll]
    exact ih _ _ _ _ (ltLookup_getOrCreateLT_stable cache c fresh k0 v h)

/-- The `GetOrCreate` step leaves its own key bound to the identity it
returns. -/
theorem ltLookup_getOrCreateLT_self (cache : LTCache) (k : ResolvedConfig) (fresh : Nat) :
    ltLookup (getOrCreateLT cache k fresh).2.1 k = some (getOrCreateLT cache k fresh).1 := by
  unfold getOrCreateLT
  cases hk : ltLookup cache k with
  | some id => simpa using hk
  | none => simp [ltLookup]

/-- After resolving a request, every one of its resolved configurations is
bound in the cache. -/
theorem getOrCreateAll_mem_bound (cfgs : List ResolvedConfig) :
    ∀ (cache : LTCache) (fresh : Nat) (c : ResolvedConfig), c ∈ cfgs →
      ((ltLookup (getOrCreateAll cache cfgs fresh).2.1 c).isSome : Prop) := by
  induction cfgs with
  | nil => intro cache fresh c hc; simp at hc
  | cons c0 rest ih =>
    intro cache fresh c hc
    simp only [getOrCreateAll]
    rcases List.mem_cons.mp hc with h | h
    · subst h
      have hbound := ltLookup_getOrCreateLT_self cache c fresh
      have := ltLookup_getOrCreateAll_stable rest (getOrCreateLT cache c fresh).2.1
        (getOrCreateLT cache c fresh).2.2.1 c (getOrCreateLT cache c fresh).1 hbound
      simp [this]
    · exact ih _ _ _ h

/-- The identities a run returns are exactly the final cache's bindings of
its configurations, in order. -/
theorem getOrCreateAll_ids_eq_final_lookup (cfgs : List ResolvedConfig) :
    ∀ (cache : LTCache) (fresh : Nat),
      (getOrCreateAll cache cfgs fresh).1 =
        cfgs.map (fun c => (ltLookup (getOrCreateAll cache cfgs fresh).2.1 c).getD 0) := by
  induction cfgs with
  | nil => intro cache fresh; simp [getOrCreateAll]
  | cons c0 rest ih =>
    intro cache fresh
    simp only [getOrCreateAll, List.map_cons, List.cons.injEq]
    constructor
    · have hbound := ltLookup_getOrCreateLT_self cache c0 fresh
      have hstable := ltLookup_getOrCreateAll_stable rest (getOrCreateLT cache c0 fresh).2.1
        (getOrCreateLT cache c0 fresh).2.2.1 c0 (getOrCreateLT cache c0 fresh).1 hbound
      simp [hstable]
    · exact ih _ _

/-- A run over configurations that are all already bound returns the
cached identities, leaves the cache and counter unchanged, and performs no
cloud create call. -/
theorem getOrCreateAll_all_hits (cfgs : List ResolvedConfig) :
    ∀ (cache : LTCache) (fresh : Nat),
      (∀ c ∈ cfgs, ((ltLookup cache c).isSome : Prop)) →
      getOrCreateAll cache cfgs fresh =
        (cfgs.map (fun c => (ltLookup cache c).getD 0), cache, fresh, 0) := by
  induction cfgs with
  | nil => intro cache fresh _; simp [getOrCreateAll]
  | cons c0 rest ih =>
    intro cache fresh hall
    have h0 : (ltLookup cache c0).isSome := hall c0 (by simp)
    rcases Option.isSome_iff_exists.mp h0 with ⟨id0, hid0⟩
    simp only [getOrCreateAll, getOrCreateLT, hid0]
    rw [ih cache fresh (fun c hc => hall c (by simp [hc]))]
    simp [hid0]

/-- Claim C3: two scheduling requests whose pods differ only in
tolerations or labels but carry identical resolved configurations produce
the identical list of launch-template identities; the second request
reuses the cached templates — it changes nothing and creates no template. -/
theorem equivalent_requests_reuse_launch_templates
    (cache : LTCache) (r1 r2 : SchedulingRequest) (fresh : Nat)
    (ids1 : List Nat) (cache1 : LTCache) (fresh1 n1 : Nat)
    (hequiv : r1.resolvedConfigs = r2.resolvedConfigs)
    (hrun : resolveRequest cache r1 fresh = (ids1, cache1, fresh1, n1)) :
    resolveRequest cache1 r2 fresh1 = (ids1, cache1, fresh1, 0) := by
  unfold resolveRequest at hrun ⊢
  rw [← hequiv]
  have hbound : ∀ c ∈ r1.resolvedConfigs, ((ltLookup cache1 c).isSome : Prop) := by
    intro c hc
    have := getOrCreateAll_mem_bound r1.resolvedConfigs cache fresh c hc
    rwa [hrun] at this
  have hids : ids1 = r1.resolvedConfigs.map (fun c => (ltLookup cache1 c).getD 0) := by
    have := getOrCreateAll_ids_eq_final_lookup r1.resolvedConfigs cache fresh
    rwa [hrun] at this
  rw [getOrCreateAll_all_hits r1.resolvedConfigs cache1 fresh1 hbound, hids]

/-- The resolved configuration shared by the witness requests. -/
def witnessResolvedConfig : ResolvedConfig where
  amiId := "ami-123"
  securityGroupIds := ["sg-test1", "sg-test2"]
  assignsPublicIp := false
  tags := [("Name", "karpenter.sh/provisioner-name/default")]
  blockDeviceMappings := []
  bootScript := "/etc/eks/bootstrap.sh"
  capacityType := "on-demand"
  instanceProfile := "test-profile"

/-- Concrete instance of the cache-reuse theorem: requests whose pods
carry the same three tolerations in different orders share one launch
template and the second run creates nothing. -/
theorem equivalent_requests_reuse_launch_templates_witness :
    resolveRequest [(witnessResolvedConfig, 0)]
      ⟨[⟨"Zebra", "Equal", "Abacus", "NoSchedule"⟩, ⟨"Boar", "Equal", "Abacus", "NoSchedule"⟩,
        ⟨"Abacus", "Equal", "Zebra", "NoSchedule"⟩], [], [witnessResolvedConfig]⟩ 1 =
      ([0], [(witnessResolvedConfig, 0)], 1, 0) :=
  equivalent_requests_reuse_launch_templates []
    ⟨[⟨"Abacus", "Equal", "Zebra", "NoSchedule"⟩, ⟨"Zebra", "Equal", "Abacus", "NoSchedule"⟩,
      ⟨"Boar", "Equal", "Abacus", "NoSchedule"⟩], [], [witnessResolvedConfig]⟩
    ⟨[⟨"Zebra", "Equal", "Abacus", "NoSchedule"⟩, ⟨"Boar", "Equal", "Abacus", "NoSchedule"⟩,
      ⟨"Abacus", "Equal", "Zebra", "NoSchedule"⟩], [], [witnessResolvedConfig]⟩
    0 [0] [(witnessResolvedConfig, 0)] 1 1 rfl (by decide)

/-! ### Stale-template recovery -/

/-- Eviction removes the fingerprint's binding. -/
theorem ltLookup_ltEvict (cache : LTCache) (k : ResolvedConfig) :
    ltLookup (ltEvict cache k) k = none := by
  induction cache with
  | nil => rfl
  | cons e rest ih =>
    by_cases he : e.1 = k
    · simpa [ltEvict, he] using ih
    · simpa [ltEvict, ltLookup, he] using ih

/-- Claim C1: with a cached template identity and a cloud that rejects the
first capacity request with the template-not-found error code, the
orchestrator detects the error once, evicts the fingerprint's entry,
recreates the template (one create call) and retries the capacity request
exactly once, succeeding on the retry — two fleet calls, one failed and
one successful; when the retry fails with the same code the error is
surfaced with no further retry, still only two fleet calls. -/
theorem stale_template_recovery (cache : LTCache) (k : ResolvedConfig)
    (fresh oldId : Nat) (fid : String) (rest rest2 : List FleetResponse)
    (hcached : ltLookup cache k = some oldId) :
    launchCapacity cache k fresh (FleetResponse.err notFoundCode :: FleetResponse.ok fid :: rest) =
      (Except.ok fid, ⟨2, 1, 1, (k, fresh) :: ltEvict cache k⟩) ∧
    launchCapacity cache k fresh
        (FleetResponse.err notFoundCode :: FleetResponse.err notFoundCode :: rest2) =
      (Except.error notFoundCode, ⟨2, 2, 1, (k, fresh) :: ltEvict cache k⟩) := by
  have hevict := ltLookup_ltEvict cache k
  constructor <;>
    simp [launchCapacity, getOrCreateLT, hcached, hevict]

/-- Concrete instance of stale-template recovery: one stale entry, a
scripted not-found then success, net one failed and one successful fleet
call and one recreate. -/
theorem stale_template_recovery_witness :
    launchCapacity [(witnessResolvedConfig, 7)] witnessResolvedConfig 8
        [FleetResponse.err notFoundCode, FleetResponse.ok "fleet-1"] =
      (Except.ok "fleet-1", ⟨2, 1, 1, [(witnessResolvedConfig, 8)]⟩) ∧
    launchCapacity [(witnessResolvedConfig, 7)] witnessResolvedConfig 8
        [FleetResponse.err notFoundCode, FleetResponse.err notFoundCode] =
      (Except.error notFoundCode, ⟨2, 2, 1, [(witnessResolvedConfig, 8)]⟩) := by
  have h := stale_template_recovery [(witnessResolvedConfig, 7)] witnessResolvedConfig 8 7
    "fleet-1" [] [] (by decide)
  have hev : ltEvict [(witnessResolvedConfig, 7)] witnessResolvedConfig = [] := by decide
  constructor
  · have := h.1
    rwa [hev] at this
  · have := h.2
    rwa [hev] at this

/-! ### AMI selection -/

/-- Claim C4: among candidates with the identical requirement set and an
architecture compatible with the request, the resolver selects the one
with the maximum creation timestamp — for timestamps T1 < T2 < T3 the T3
candidate — while a candidate whose architecture is compatible with no
instance type under consideration is excluded regardless of its
timestamp, even if it is the newest. -/
theorem ami_selection_tiebreak (i1 i2 i3 i4 archA archB : String) (t1 t2 t3 t4 : Nat)
    (compat : List String) (h12 : t1 < t2) (h23 : t2 < t3)
    (hA : archA ∈ compat) (hB : archB ∉ compat) :
    resolveAMICandidates
      [⟨i1, t1, archA⟩, ⟨i2, t2, archA⟩, ⟨i3, t3, archA⟩, ⟨i4, t4, archB⟩] compat =
      [⟨i3, t3, archA⟩] := by
  have hAB : archA ≠ archB := by
    rintro rfl
    exact hB hA
  have d1 : List.dedup [archB] = [archB] := by simp
  have d2 : List.dedup [archA, archB] = [archA, archB] := by
    rw [List.dedup_cons_of_not_mem (by simp [d1, hAB])]
    rw [d1]
  have d3 : List.dedup [archA, archA, archB] = [archA, archB] := by
    rw [List.dedup_cons_of_mem (by simp [d2])]
    exact d2
  have d4 : List.dedup [archA, archA, archA, archB] = [archA, archB] := by
    rw [List.dedup_cons_of_mem (by simp [d3])]
    exact d3
  have harch : archesOf [⟨i1, t1, archA⟩, ⟨i2, t2, archA⟩, ⟨i3, t3, archA⟩, ⟨i4, t4, archB⟩] =
      [archA, archB] := by
    simp only [archesOf, List.map]
    exact d4
  unfold resolveAMICandidates
  rw [harch]
  have hfilter : [archA, archB].filter (fun s => decide (s ∈ compat)) = [archA] := by
    simp [List.filter, hA, hB]
  rw [hfilter]
  simp only [List.filterMap, List.filter, decide_eq_true_eq]
  simp [hAB.symm, pickNewest, h12, h23, Nat.lt_asymm h12]

/-- Concrete instance of the AMI tie-break at the test suite's images:
two x86_64 candidates from 2020 and 2021 and a newer arm64 candidate,
resolved against x86_64-only instance types, select the 2021 x86_64
image. -/
theorem ami_selection_tiebreak_witness :
    resolveAMICandidates
      [⟨"ami-123", 20200101, "x86_64"⟩, ⟨"ami-456", 20210101, "x86_64"⟩,
       ⟨"ami-457", 20210601, "x86_64"⟩, ⟨"ami-789", 20220101, "arm64"⟩] ["x86_64"] =
      [⟨"ami-457", 20210601, "x86_64"⟩] :=
  ami_selection_tiebreak "ami-123" "ami-456" "ami-457" "ami-789" "x86_64" "arm64"
    20200101 20210101 20210601 20220101 ["x86_64"]
    (by decide) (by decide) (by decide) (by decide)

/-- Under requirements no candidate satisfies, AMI resolution yields the
empty candidate set. -/
theorem resolveAMICandidates_eq_nil (amis : List AMI) (compat : List String)
    (h : ∀ a ∈ amis, a.arch ∉ compat) :
    resolveAMICandidates amis compat = [] := by
  unfold resolveAMICandidates
  have hfilter : (archesOf amis).filter (fun s => decide (s ∈ compat)) = [] := by
    apply List.filter_eq_nil_iff.mpr
    intro s hs
    simp only [decide_eq_true_eq]
    have hmem : s ∈ amis.map (fun a => a.arch) := List.mem_dedup.mp hs
    rcases List.mem_map.mp hmem with ⟨a, ha, rfl⟩
    exact h a ha
  rw [hfilter]
  rfl

/-- Claim C7: when the selector matches zero images, or no instance type
under consideration is compatible with any resolved AMI's requirements,
provisioning for the node-class fails: the error is surfaced to the
caller, no launch template is created, and resolution is attempted exactly
once (no internal retry). -/
theorem empty_ami_resolution_fails (amis : List AMI) (compat : List String)
    (h : ∀ a ∈ amis, a.arch ∉ compat) :
    provisionNodeClass amis compat = (Except.error "no compatible amis resolved", 0, 1) := by
  unfold provisionNodeClass resolveAMIPipeline
  rw [resolveAMICandidates_eq_nil amis compat h]
  rfl

/-- Concrete instances of the hard failure: an empty match set, and a
single image whose architecture no instance type supports. -/
theorem empty_ami_resolution_fails_witness :
    provisionNodeClass [] ["x86_64", "arm64"] =
      (Except.error "no compatible amis resolved", 0, 1) ∧
    provisionNodeClass [⟨"ami-123", 20220101, "newnew"⟩] ["x86_64", "arm64"] =
      (Except.error "no compatible amis resolved", 0, 1) :=
  ⟨empty_ami_resolution_fails [] ["x86_64", "arm64"] (by decide),
   empty_ami_resolution_fails [⟨"ami-123", 20220101, "newnew"⟩] ["x86_64", "arm64"] (by decide)⟩

/-! ### Reserved-label exclusion -/

/-- A prefix of a long-enough extension is already a prefix of the base. -/
theorem hasPrefixChars_of_append (pat : List Char) :
    ∀ (s u : List Char), hasPrefixChars pat (s ++ u) = true →
      pat.length ≤ s.length → hasPrefixChars pat s = true := by
  induction pat with
  | nil => intro s u _ _; rfl
  | cons p ps ih =>
    intro s u h hlen
    cases s with
    | nil => simp at hlen
    | cons a as =>
      simp only [List.cons_append, hasPrefixChars, Bool.and_eq_true] at h ⊢
      exact ⟨h.1, ih as u h.2 (by simpa using hlen)⟩

/-- A prefix occurrence that overruns the base covers the boundary
character, so the pattern contains it. -/
theorem mem_of_hasPrefixChars_overrun :
    ∀ (s pat t : List Char) (c : Char), hasPrefixChars pat (s ++ c :: t) = true →
      s.length < pat.length → c ∈ pat := by
  intro s
  induction s with
  | nil =>
    intro pat t c h hlen
    cases pat with
    | nil => simp at hlen
    | cons p ps =>
      simp only [List.nil_append, hasPrefixChars, Bool.and_eq_true, beq_iff_eq] at h
      have hp : p = c := h.1
      subst hp
      exact List.mem_cons_self _ _
  | cons a as ih =>
    intro pat t c h hlen
    cases pat with
    | nil => simp at hlen
    | cons p ps =>
      simp only [List.cons_append, hasPrefixChars, Bool.and_eq_true] at h
      exact List.mem_cons_of_mem _ (ih ps t c h.2 (by simpa using hlen))

/-- Gluing two pattern-free strings with a character the pattern does not
contain keeps them pattern-free: no occurrence can cross the boundary. -/
theorem containsSeq_glue (pat : List Char) (c : Char) (hc : c ∉ pat) :
    ∀ (s t : List Char), containsSeq pat s = false → containsSeq pat t = false →
      containsSeq pat (s ++ c :: t) = false := by
  intro s
  induction s with
  | nil =>
    intro t hs ht
    have hpat : pat ≠ [] := by
      intro he
      subst he
      simp [containsSeq] at hs
    simp only [List.nil_append, containsSeq, Bool.or_eq_false_iff]
    refine ⟨?_, ht⟩
    cases hpre : hasPrefixChars pat (c :: t) with
    | false => rfl
    | true =>
      have hmem : c ∈ pat := mem_of_hasPrefixChars_overrun [] pat t c (by simpa using hpre)
        (by simpa using List.length_pos.mpr hpat)
      exact absurd hmem hc
  | cons a as ih =>
    intro t hs ht
    simp only [containsSeq, Bool.or_eq_false_iff] at hs
    simp only [List.cons_append, containsSeq, Bool.or_eq_false_iff]
    refine ⟨?_, ih t hs.2 ht⟩
    cases hpre : hasPrefixChars pat (a :: (as ++ c :: t)) with
    | false => rfl
    | true =>
      have hpre2 : hasPrefixChars pat ((a :: as) ++ c :: t) = true := by
        simpa using hpre
      rcases le_or_lt pat.length (a :: as).length with hle | hlt
      · have := hasPrefixChars_of_append pat (a :: as) (c :: t) hpre2 hle
        rw [hs.1] at this
        exact absurd this (by simp)
      · exact absurd (mem_of_hasPrefixChars_overrun (a :: as) pat t c hpre2 hlt) hc

/-- Prefix transitivity for the character-list prefix test. -/
theorem hasPrefixChars_trans (p : List Char) :
    ∀ (q s : List Char), hasPrefixChars p q = true → hasPrefixChars q s = true →
      hasPrefixChars p s = true := by
  induction p with
  | nil => intro q s _ _; rfl
  | cons a as ih =>
    intro q s hpq hqs
    cases q with
    | nil => simp [hasPrefixChars] at hpq
    | cons b bs =>
      cases s with
      | nil => simp [hasPrefixChars] at hqs
      | cons c cs =>
        simp only [hasPrefixChars, Bool.and_eq_true, beq_iff_eq] at hpq hqs ⊢
        exact ⟨hpq.1.trans hqs.1, ih bs cs hpq.2 hqs.2⟩

/-- Every occurrence of a pattern is an occurrence of each of its
prefixes. -/
theorem containsSeq_of_prefix_containsSeq (p q : List Char)
    (hpq : hasPrefixChars p q = true) :
    ∀ s, containsSeq q s = true → containsSeq p s = true := by
  intro s
  induction s with
  | nil =>
    intro h
    simp only [containsSeq, List.isEmpty_iff] at h ⊢
    subst h
    cases p with
    | nil => rfl
    | cons a as => simp [hasPrefixChars] at hpq
  | cons c rest ih =>
    intro h
    simp only [containsSeq, Bool.or_eq_true] at h ⊢
    rcases h with h | h
    · exact Or.inl (hasPrefixChars_trans p q (c :: rest) hpq h)
    · exact Or.inr (ih h)

/-- Labels free of the pattern render to a label-argument string free of
the pattern, provided the separators are not pattern characters. -/
theorem containsSeq_renderLabelArgs (pat : List Char) (hpat : pat ≠ [])
    (heq : '=' ∉ pat) (hcomma : ',' ∉ pat) :
    ∀ labels : Tags,
      (∀ kv ∈ labels, containsSeq pat kv.1.data = false ∧
        containsSeq pat kv.2.data = false) →
      containsSeq pat (renderLabelArgs labels) = false := by
  intro labels
  induction labels with
  | nil =>
    intro _
    cases pat with
    | nil => exact absurd rfl hpat
    | cons a as => rfl
  | cons kv rest ih =>
    intro hall
    obtain ⟨k, v⟩ := kv
    have hkv := hall (k, v) (by simp)
    cases rest with
    | nil =>
      show containsSeq pat (k.data ++ '=' :: v.data) = false
      exact containsSeq_glue pat '=' heq k.data v.data hkv.1 hkv.2
    | cons kv2 rest2 =>
      obtain ⟨k2, v2⟩ := kv2
      have hrest : ∀ x ∈ (k2, v2) :: rest2, containsSeq pat x.1.data = false ∧
          containsSeq pat x.2.data = false := by
        intro x hx
        exact hall x (List.mem_cons_of_mem _ hx)
      have inner := containsSeq_glue pat ',' hcomma v.data
        (renderLabelArgs ((k2, v2) :: rest2)) hkv.2 (ih hrest)
      show containsSeq pat
        (k.data ++ '=' :: (v.data ++ ',' :: renderLabelArgs ((k2, v2) :: rest2))) = false
      exact containsSeq_glue pat '=' heq k.data _ hkv.1 inner

/-- Claim C9: whenever the fixed bootstrap text is free of the reserved
node-restriction domain and the forwarded (non-reserved) labels are too,
the rendered boot-script bytes contain neither the reserved domain nor any
label key under it — reserved labels never appear in the output, whatever
their values. -/
theorem reserved_label_exclusion (head tl : String) (labels : Tags)
    (hhead : containsSeq reservedDomain head.data = false)
    (htl : containsSeq reservedDomain tl.data = false)
    (hlabels : ∀ kv ∈ labels, isReservedLabelKey kv.1 = false →
      containsSeq reservedDomain kv.1.data = false ∧
      containsSeq reservedDomain kv.2.data = false) :
    containsSeq reservedDomain (renderBootstrapUserData head labels tl) = false ∧
    ∀ kv ∈ labels, isReservedLabelKey kv.1 = true →
      containsSeq kv.1.data (renderBootstrapUserData head labels tl) = false := by
  have hne : reservedDomain ≠ [] := by decide
  have heq : '=' ∉ reservedDomain := by decide
  have hcomma : ',' ∉ reservedDomain := by decide
  have hspace : ' ' ∉ reservedDomain := by decide
  have hkept : ∀ kv ∈ labels.filter (fun kv => !(isReservedLabelKey kv.1)),
      containsSeq reservedDomain kv.1.data = false ∧
      containsSeq reservedDomain kv.2.data = false := by
    intro kv hkv
    rcases List.mem_filter.mp hkv with ⟨hmem, hpred⟩
    exact hlabels kv hmem (by simpa using hpred)
  have hargs := containsSeq_renderLabelArgs reservedDomain hne heq hcomma
    (labels.filter (fun kv => !(isReservedLabelKey kv.1))) hkept
  have hinner := containsSeq_glue reservedDomain ' ' hspace
    (renderLabelArgs (labels.filter (fun kv => !(isReservedLabelKey kv.1)))) tl.data
    hargs htl
  have hmain := containsSeq_glue reservedDomain '=' heq head.data _ hhead hinner
  have hmain2 : containsSeq reservedDomain (renderBootstrapUserData head labels tl) = false := by
    simp only [renderBootstrapUserData]
    exact hmain
  refine ⟨hmain2, ?_⟩
  intro kv hkv hres
  cases hocc : containsSeq kv.1.data (renderBootstrapUserData head labels tl) with
  | false => rfl
  | true =>
    have hboth := containsSeq_of_prefix_containsSeq reservedDomain kv.1.data hres
      (renderBootstrapUserData head labels tl) hocc
    rw [hmain2] at hboth
    exact absurd hboth (by simp)

/-- Concrete instance with the test suite's reserved labels: neither the
domain nor the reserved keys reach the rendered user data. -/
theorem reserved_label_exclusion_witness :
    containsSeq reservedDomain (renderBootstrapUserData
      "/etc/eks/bootstrap.sh test-cluster --kubelet-extra-args --node-labels"
      [("node-restriction.kubernetes.io/team", "team-1"),
       ("node-restriction.kubernetes.io/custom-label", "custom-value"),
       ("karpenter.sh/provisioner-name", "default")]
      "--max-pods=110") = false :=
  (reserved_label_exclusion
    "/etc/eks/bootstrap.sh test-cluster --kubelet-extra-args --node-labels"
    "--max-pods=110"
    [("node-restriction.kubernetes.io/team", "team-1"),
     ("node-restriction.kubernetes.io/custom-label", "custom-value"),
     ("karpenter.sh/provisioner-name", "default")]
    (by decide) (by decide) (by decide)).1

end Karpenter
